import Mathlib

/-!
Verification of the AOI-reconciliation and raster-overlap engine of the
`aws-sencloud-monitoring` repository (files `lambda/lambda_function.py`,
`lambda/osgeo_utils.py`).

Shallow embedding conventions:
* Ground coordinates and geotransform coefficients are rationals (`ℚ`);
  the Python code uses IEEE doubles, whose algebra the claims treat exactly.
* Python's built-in `round` (banker's rounding, round-half-to-even) is
  modelled by `pyRound`.
* Python float division, which raises `ZeroDivisionError` on a zero
  divisor, is modelled by `pyDivF : ℚ → ℚ → Option ℚ`, `none` standing
  for the raised exception.
* NumPy 2-D arrays are `List (List ℤ)` (class-code rasters) or
  `List (List Bool)` (boolean masks); the per-element NumPy operators used
  by the source are given pointwise equivalents on those lists.
* OGR geometries appear in two embeddings: an exact point-set model
  (`Set (ℚ × ℚ)`) used for the set-algebraic claims about the
  reconciliation loop, and an executable model by finite unions of
  axis-aligned rectangles (`List Extent`) used to run the handler on
  concrete invocations (every geometry the reconciliation path builds is a
  bbox polygon, an intersection of two of them, or a difference of such,
  so rectilinear unions represent all reachable states exactly).
-/

namespace SenCloud

/-- Python's built-in `round`: round half to even (banker's rounding),
used by `GdalCommonUtils.get_reading_window` (osgeo_utils.py lines 102-105). -/
def pyRound (q : ℚ) : ℤ :=
  if q - (q.floor : ℚ) < 1/2 then q.floor
  else if 1/2 < q - (q.floor : ℚ) then q.floor + 1
  else if q.floor % 2 = 0 then q.floor else q.floor + 1

/-- `Rat.floor` agrees with the order-theoretic floor. -/
theorem ratFloor_eq_intFloor (q : ℚ) : q.floor = ⌊q⌋ := by
  rw [Rat.floor_def' q, Rat.floor_def]

/-- `pyRound` written with the order-theoretic floor. -/
theorem pyRound_eq_floor_form (q : ℚ) :
    pyRound q =
      if q - (⌊q⌋ : ℚ) < 1/2 then ⌊q⌋
      else if 1/2 < q - (⌊q⌋ : ℚ) then ⌊q⌋ + 1
      else if ⌊q⌋ % 2 = 0 then ⌊q⌋ else ⌊q⌋ + 1 := by
  rw [pyRound, ratFloor_eq_intFloor]

/-- `round` of an exact integer is that integer. -/
theorem pyRound_intCast (m : ℤ) : pyRound (m : ℚ) = m := by
  rw [pyRound_eq_floor_form]
  simp [Int.floor_intCast]

/-- `round` of an exact natural number is that number. -/
theorem pyRound_natCast (m : ℕ) : pyRound (m : ℚ) = (m : ℤ) := by
  have h := pyRound_intCast (m : ℤ)
  rwa [Int.cast_natCast] at h

/-- `round q` is at most `q + 1/2`. -/
theorem pyRound_le (q : ℚ) : (pyRound q : ℚ) ≤ q + 1/2 := by
  have h0 : (⌊q⌋ : ℚ) ≤ q := Int.floor_le q
  have h1 : q < (⌊q⌋ : ℚ) + 1 := Int.lt_floor_add_one q
  rw [pyRound_eq_floor_form]
  split_ifs with hlt hgt heven
  · linarith
  · push_cast; linarith
  · linarith
  · push_cast; linarith

/-- `round q` is at least `q - 1/2`. -/
theorem le_pyRound (q : ℚ) : q - 1/2 ≤ (pyRound q : ℚ) := by
  have h0 : (⌊q⌋ : ℚ) ≤ q := Int.floor_le q
  have h1 : q < (⌊q⌋ : ℚ) + 1 := Int.lt_floor_add_one q
  rw [pyRound_eq_floor_form]
  split_ifs with hlt hgt heven
  · linarith
  · push_cast; linarith
  · linarith
  · push_cast; linarith

/-- `round` is monotone. -/
theorem pyRound_mono {q r : ℚ} (h : q ≤ r) : pyRound q ≤ pyRound r := by
  by_contra hcon
  push_neg at hcon
  have hstep : (pyRound r : ℚ) + 1 ≤ (pyRound q : ℚ) := by
    exact_mod_cast Int.add_one_le_iff.mpr hcon
  have hA := pyRound_le q
  have hB := le_pyRound r
  have hqr : q = r := le_antisymm h (by linarith)
  rw [hqr] at hcon
  exact lt_irrefl _ hcon

/-- Python float division: raises `ZeroDivisionError` (modelled as `none`)
when the divisor is zero (lambda_function.py line 240). -/
def pyDivF (a b : ℚ) : Option ℚ :=
  if b = 0 then none else some (a / b)

/-- A ground-coordinate envelope `(min_x, min_y, max_x, max_y)`, the tuple
returned by `GdalCommonUtils.get_envelope` and the layout of the
`aoi_extent` list built at lambda_function.py line 170. -/
structure Extent where
  x_min : ℚ
  y_min : ℚ
  x_max : ℚ
  y_max : ℚ
deriving DecidableEq

/-- A GDAL raster dataset as the engine reads it: pixel dimensions and the
six geotransform coefficients in `GetGeoTransform()` order, unpacked at
osgeo_utils.py lines 66-71 as `c, a, b, f, d, e`. -/
structure Dataset where
  RasterXSize : ℕ
  RasterYSize : ℕ
  gt0 : ℚ
  gt1 : ℚ
  gt2 : ℚ
  gt3 : ℚ
  gt4 : ℚ
  gt5 : ℚ
deriving DecidableEq

/-- `GdalCommonUtils.get_envelope` (osgeo_utils.py lines 60-83): evaluate the
affine geotransform at pixel `(0,0)` and at `(width,height)` with texel
offset `t = 0`, then normalize with `min`/`max`. -/
def get_envelope (dataset : Dataset) : Extent :=
  let c := dataset.gt0
  let a := dataset.gt1
  let b := dataset.gt2
  let f := dataset.gt3
  let d := dataset.gt4
  let e := dataset.gt5
  let env_a_x := a * 0 + b * 0 + c
  let env_a_y := d * 0 + e * 0 + f
  let col : ℚ := dataset.RasterXSize
  let row : ℚ := dataset.RasterYSize
  let env_b_x := a * col + b * row + c
  let env_b_y := d * col + e * row + f
  { x_min := min env_a_x env_b_x
    y_min := min env_a_y env_b_y
    x_max := max env_a_x env_b_x
    y_max := max env_a_y env_b_y }

/-- `GdalCommonUtils.get_reading_window` (osgeo_utils.py lines 85-106):
per-axis resolution from the dataset's own envelope, then rounded pixel
offsets, returned as `(left, top, right, bottom)`. -/
def get_reading_window (dataset : Dataset) (bbox : Extent) : ℤ × ℤ × ℤ × ℤ :=
  let envelope := get_envelope dataset
  let w : ℚ := dataset.RasterXSize
  let h : ℚ := dataset.RasterYSize
  let data_ul_x := envelope.x_min
  let data_lr_y := envelope.y_min
  let data_lr_x := envelope.x_max
  let data_ul_y := envelope.y_max
  let res_x := |data_ul_x - data_lr_x| / w
  let res_y := |data_ul_y - data_lr_y| / h
  let ul_x := bbox.x_min
  let lr_y := bbox.y_min
  let lr_x := bbox.x_max
  let ul_y := bbox.y_max
  (pyRound ((ul_x - data_ul_x) / res_x),
   pyRound ((data_ul_y - ul_y) / res_y),
   pyRound ((lr_x - data_ul_x) / res_x),
   pyRound ((data_ul_y - lr_y) / res_y))

/-- The in-bounds predicate of the spec's PixelWindow data model:
`0 ≤ left ≤ right ≤ width` and `0 ≤ top ≤ bottom ≤ height` for a window
`(left, top, right, bottom)` on the dataset's grid. -/
def window_within_grid (dataset : Dataset) (wnd : ℤ × ℤ × ℤ × ℤ) : Prop :=
  0 ≤ wnd.1 ∧ wnd.1 ≤ wnd.2.2.1 ∧ wnd.2.2.1 ≤ (dataset.RasterXSize : ℤ) ∧
  0 ≤ wnd.2.1 ∧ wnd.2.1 ≤ wnd.2.2.2 ∧ wnd.2.2.2 ≤ (dataset.RasterYSize : ℤ)

instance window_within_grid_decidable (dataset : Dataset) (wnd : ℤ × ℤ × ℤ × ℤ) :
    Decidable (window_within_grid dataset wnd) := by
  unfold window_within_grid
  infer_instance

/-- Clamping of the residual-AOI envelope to the land-use dataset envelope
(lambda_function.py lines 165-170). `temp` is the tuple returned by
`aoi_geometry.GetEnvelope()`. -/
def clamp_aoi_extent (temp : Extent) (lu_extent : Extent) : Extent :=
  { x_min := max temp.x_min lu_extent.x_min
    y_min := max temp.y_min lu_extent.y_min
    x_max := min temp.x_max lu_extent.x_max
    y_max := min temp.y_max lu_extent.y_max }

/-- Sanity check: Python `round` ties go to the even integer. -/
example : pyRound (5/2) = 2 ∧ pyRound (3/2) = 2 ∧ pyRound (-1/2) = 0 ∧ pyRound (7/10) = 1 :=
  of_decide_eq_true (by with_unfolding_all rfl)

/-! ### Classification & statistics (lambda_function.py lines 50-65 and 196-240)

NumPy array expressions are embedded pointwise on `List (List _)` grids. -/

/-- `np.zeros_like(raster, dtype=np.bool)`. -/
def np_zeros_like_bool (raster : List (List ℤ)) : List (List Bool) :=
  raster.map (fun row => row.map (fun _ => false))

/-- The boolean array `raster == code`. -/
def np_equal_mask (raster : List (List ℤ)) (code : ℤ) : List (List Bool) :=
  raster.map (fun row => row.map (fun v => v == code))

/-- The boolean array `raster > v`. -/
def np_greater_mask (raster : List (List ℤ)) (v : ℤ) : List (List Bool) :=
  raster.map (fun row => row.map (fun x => decide (v < x)))

/-- `np.logical_or` of two same-shape boolean arrays. -/
def np_logical_or (a b : List (List Bool)) : List (List Bool) :=
  List.zipWith (List.zipWith or) a b

/-- `mask.astype(np.int)`. -/
def np_astype_int (mask : List (List Bool)) : List (List ℤ) :=
  mask.map (fun row => row.map (fun b => if b then 1 else 0))

/-- `np.count_nonzero` of a boolean array. -/
def np_count_nonzero (mask : List (List Bool)) : ℕ :=
  (mask.map (fun row => (row.filter (fun b => b)).length)).sum

/-- Default `valid_classes` of `get_valid_sen2cor_cloud_mask`
(lambda_function.py line 50). -/
def sen2cor_default_valid_classes : List ℤ := [2, 4, 5, 6, 7, 11]

/-- Default `valid_classes` of `get_valid_sigpac_urban_mask`
(lambda_function.py line 59). -/
def sigpac_default_valid_classes : List ℤ := [0, 5]

/-- `get_valid_sen2cor_cloud_mask` (lambda_function.py lines 50-56): start
from an all-false mask and `or` in `raster == code` for each valid class. -/
def get_valid_sen2cor_cloud_mask (cm_raster : List (List ℤ)) (valid_classes : List ℤ) :
    List (List Bool) :=
  valid_classes.foldl
    (fun scl_mask code => np_logical_or scl_mask (np_equal_mask cm_raster code))
    (np_zeros_like_bool cm_raster)

/-- `get_valid_sigpac_urban_mask` (lambda_function.py lines 59-65). -/
def get_valid_sigpac_urban_mask (lu_raster : List (List ℤ)) (valid_classes : List ℤ) :
    List (List Bool) :=
  valid_classes.foldl
    (fun lu_mask code => np_logical_or lu_mask (np_equal_mask lu_raster code))
    (np_zeros_like_bool lu_raster)

/-- The statistics step of `lambda_handler` (lambda_function.py lines
196-240), operating on the cloud-mask window, the land-use window and the
rasterized footprint mask `gm_raster` (all co-registered grids).
`cm_no_data` / `lu_no_data` are the values the handler reads from
`GetNoDataValue()` at lines 177 and 183; the source binds them and never
uses them again, which this embedding mirrors by ignoring the parameters.
Returns `(count_of_urban_pixels, count_of_valid_urban_pixels, urban_cover)`,
where `urban_cover = none` models the `ZeroDivisionError` that line 240
raises when `count_of_urban_pixels == 0`. -/
def lambda_statistics (cm_raster lu_raster gm_raster : List (List ℤ))
    (cm_no_data lu_no_data : Option ℚ) : ℕ × ℕ × Option ℚ :=
  let cm_mask := np_astype_int (get_valid_sen2cor_cloud_mask cm_raster sen2cor_default_valid_classes)
  let lu_mask := np_astype_int (get_valid_sigpac_urban_mask lu_raster sigpac_default_valid_classes)
  let rs_raster := lu_mask
  let valid_mask := List.zipWith (List.zipWith (fun c l => decide (0 < c) && decide (0 < l))) cm_mask lu_mask
  let rs_raster := List.zipWith (List.zipWith (fun r v => if v then (2 : ℤ) else r)) rs_raster valid_mask
  let fp_mask := np_equal_mask gm_raster 1
  let rs_raster := List.zipWith (List.zipWith (fun r v => if v then r else (0 : ℤ))) rs_raster fp_mask
  let count_of_valid_urban_pixels := np_count_nonzero (np_equal_mask rs_raster 2)
  let count_of_urban_pixels := np_count_nonzero (np_greater_mask rs_raster 0)
  (count_of_urban_pixels, count_of_valid_urban_pixels,
    pyDivF (100 * (count_of_valid_urban_pixels : ℚ)) (count_of_urban_pixels : ℚ))

/-! ### Claims C1, C2, C10 — the statistics step -/

/-- C1 (counterexample): an invocation whose footprint mask is entirely
outside (`gm_raster` all zero) reaches the statistics step with
`urban_pixel_count = 0`, and `urban_cover` is `none` — line 240 raises
`ZeroDivisionError` — rather than the claimed guarded `0`/null value. -/
theorem C1_counterexample_division_raises :
    (lambda_statistics [[2]] [[0]] [[0]] none none).1 = 0 ∧
    (lambda_statistics [[2]] [[0]] [[0]] none none).2.2 = none :=
  of_decide_eq_true (by with_unfolding_all rfl)

/-- C1 (amended): the division at line 240 is *not* guarded — whenever the
statistics step ends with `urban_pixel_count = 0`, the cover computation
raises `ZeroDivisionError` (modelled by `none`) instead of reporting a
value. -/
theorem C1_urban_cover_raises_when_zero (cm_raster lu_raster gm_raster : List (List ℤ))
    (cm_no_data lu_no_data : Option ℚ)
    (h : (lambda_statistics cm_raster lu_raster gm_raster cm_no_data lu_no_data).1 = 0) :
    (lambda_statistics cm_raster lu_raster gm_raster cm_no_data lu_no_data).2.2 = none := by
  simp only [lambda_statistics] at h ⊢
  simp [pyDivF, h]

/-- Witness for C1's amended theorem: a window of clear sky over non-urban
land has `urban_pixel_count = 0`, and its cover computation raises. -/
theorem C1_urban_cover_raises_when_zero_witness :
    (lambda_statistics [[2]] [[1]] [[1]] none none).1 = 0 ∧
    (lambda_statistics [[2]] [[1]] [[1]] none none).2.2 = none :=
  ⟨of_decide_eq_true (by with_unfolding_all rfl),
   C1_urban_cover_raises_when_zero [[2]] [[1]] [[1]] none none
     (of_decide_eq_true (by with_unfolding_all rfl))⟩

/-- C2 (counterexample): on the spec's own 4×4 end-to-end example the
statistics step does *not* produce `(16, 16, 100.0)` — the four pixels with
cloud code 1 are cloud-invalid. -/
theorem C2_counterexample_end_to_end :
    lambda_statistics [[4, 4, 1, 1], [4, 4, 1, 1], [2, 2, 2, 2], [2, 2, 2, 2]]
        [[0, 0, 0, 0], [0, 0, 0, 0], [0, 0, 0, 0], [0, 0, 0, 0]]
        [[1, 1, 1, 1], [1, 1, 1, 1], [1, 1, 1, 1], [1, 1, 1, 1]] none none ≠
      (16, 16, some 100) :=
  of_decide_eq_true (by with_unfolding_all rfl)

/-- C2 (amended): on the 4×4 cloud window `[[4,4,1,1],[4,4,1,1],[2,2,2,2],
[2,2,2,2]]`, an all-zero land-use window and a full footprint mask, the
statistics step produces `urban_pixel_count = 16`,
`valid_urban_pixel_count = 12` and `urban_cover = 75.0` (the four pixels of
cloud class 1 count as urban but not as valid urban). -/
theorem C2_end_to_end_example :
    lambda_statistics [[4, 4, 1, 1], [4, 4, 1, 1], [2, 2, 2, 2], [2, 2, 2, 2]]
        [[0, 0, 0, 0], [0, 0, 0, 0], [0, 0, 0, 0], [0, 0, 0, 0]]
        [[1, 1, 1, 1], [1, 1, 1, 1], [1, 1, 1, 1], [1, 1, 1, 1]] none none =
      (16, 12, some 75) :=
  of_decide_eq_true (by with_unfolding_all rfl)

/-- C10: the statistics are independent of the declared nodata values —
the handler binds `cm_no_data` and `lu_no_data` (lines 177, 183) and never
consults them, so two invocations identical except for the nodata
declarations produce identical `urban_pixels`, `valid_urban_pixels` and
`urban_cover`. -/
theorem C10_nodata_noninterference (cm_raster lu_raster gm_raster : List (List ℤ))
    (cm_no_data lu_no_data cm_no_data' lu_no_data' : Option ℚ) :
    lambda_statistics cm_raster lu_raster gm_raster cm_no_data lu_no_data =
      lambda_statistics cm_raster lu_raster gm_raster cm_no_data' lu_no_data' :=
  rfl

/-! ### Raster geometry lemmas -/

/-- `pyRound 0 = 0`. -/
theorem pyRound_zero : pyRound 0 = 0 := by
  simpa using pyRound_intCast 0

/-- The envelope is normalized on the x axis. -/
theorem envelope_min_le_max_x (D : Dataset) : (get_envelope D).x_min ≤ (get_envelope D).x_max := by
  simp only [get_envelope]
  exact min_le_max

/-- The envelope is normalized on the y axis. -/
theorem envelope_min_le_max_y (D : Dataset) : (get_envelope D).y_min ≤ (get_envelope D).y_max := by
  simp only [get_envelope]
  exact min_le_max

/-- With no row rotation, the envelope width is `|pixel width| * raster width`. -/
theorem envelope_width (D : Dataset) (hb : D.gt2 = 0) :
    (get_envelope D).x_max - (get_envelope D).x_min = |D.gt1| * (D.RasterXSize : ℚ) := by
  simp only [get_envelope, hb]
  rw [max_sub_min_eq_abs]
  rw [show D.gt1 * (D.RasterXSize : ℚ) + 0 * (D.RasterYSize : ℚ) + D.gt0 -
        (D.gt1 * 0 + 0 * 0 + D.gt0) = D.gt1 * (D.RasterXSize : ℚ) from by ring]
  rw [abs_mul, abs_of_nonneg (by positivity : (0:ℚ) ≤ (D.RasterXSize : ℚ))]

/-- With no column rotation, the envelope height is `|pixel height| * raster height`. -/
theorem envelope_height (D : Dataset) (hd : D.gt4 = 0) :
    (get_envelope D).y_max - (get_envelope D).y_min = |D.gt5| * (D.RasterYSize : ℚ) := by
  simp only [get_envelope, hd]
  rw [max_sub_min_eq_abs]
  rw [show 0 * (D.RasterXSize : ℚ) + D.gt5 * (D.RasterYSize : ℚ) + D.gt3 -
        (0 * 0 + D.gt5 * 0 + D.gt3) = D.gt5 * (D.RasterYSize : ℚ) from by ring]
  rw [abs_mul, abs_of_nonneg (by positivity : (0:ℚ) ≤ (D.RasterYSize : ℚ))]

/-- The x resolution computed by `get_reading_window` equals `|gt1|`. -/
theorem res_x_eq (D : Dataset) (hb : D.gt2 = 0) (hw : 0 < D.RasterXSize) :
    |(get_envelope D).x_min - (get_envelope D).x_max| / (D.RasterXSize : ℚ) = |D.gt1| := by
  rw [abs_sub_comm, abs_of_nonneg (sub_nonneg.mpr (envelope_min_le_max_x D)),
    envelope_width D hb]
  exact mul_div_cancel_right₀ _ (by positivity)

/-- The y resolution computed by `get_reading_window` equals `|gt5|`. -/
theorem res_y_eq (D : Dataset) (hd : D.gt4 = 0) (hh : 0 < D.RasterYSize) :
    |(get_envelope D).y_max - (get_envelope D).y_min| / (D.RasterYSize : ℚ) = |D.gt5| := by
  rw [abs_of_nonneg (sub_nonneg.mpr (envelope_min_le_max_y D)), envelope_height D hd]
  exact mul_div_cancel_right₀ _ (by positivity)

/-- `get_reading_window` with resolutions rewritten to `|gt1|`, `|gt5|`. -/
theorem get_reading_window_no_rotation (D : Dataset) (bbox : Extent)
    (hb : D.gt2 = 0) (hd : D.gt4 = 0) (hw : 0 < D.RasterXSize) (hh : 0 < D.RasterYSize) :
    get_reading_window D bbox =
      (pyRound ((bbox.x_min - (get_envelope D).x_min) / |D.gt1|),
       pyRound (((get_envelope D).y_max - bbox.y_max) / |D.gt5|),
       pyRound ((bbox.x_max - (get_envelope D).x_min) / |D.gt1|),
       pyRound (((get_envelope D).y_max - bbox.y_min) / |D.gt5|)) := by
  simp only [get_reading_window]
  rw [res_x_eq D hb hw, res_y_eq D hd hh]

/-- C8: for every dataset with positive width and height and a zero-rotation
geotransform with nonzero pixel pitches (a negative vertical pitch included),
`get_reading_window` applied to the dataset's own `get_envelope` returns
exactly `(left, top, right, bottom) = (0, 0, width, height)`, and
`get_envelope` is normalized with `min_x ≤ max_x` and `min_y ≤ max_y`. -/
theorem C8_reading_window_roundtrip (D : Dataset)
    (hb : D.gt2 = 0) (hd : D.gt4 = 0) (ha : D.gt1 ≠ 0) (he : D.gt5 ≠ 0)
    (hw : 0 < D.RasterXSize) (hh : 0 < D.RasterYSize) :
    get_reading_window D (get_envelope D) =
      (0, 0, (D.RasterXSize : ℤ), (D.RasterYSize : ℤ)) ∧
    (get_envelope D).x_min ≤ (get_envelope D).x_max ∧
    (get_envelope D).y_min ≤ (get_envelope D).y_max := by
  refine ⟨?_, envelope_min_le_max_x D, envelope_min_le_max_y D⟩
  rw [get_reading_window_no_rotation D (get_envelope D) hb hd hw hh]
  have hax : (0:ℚ) < |D.gt1| := abs_pos.mpr ha
  have hay : (0:ℚ) < |D.gt5| := abs_pos.mpr he
  have hleft : ((get_envelope D).x_min - (get_envelope D).x_min) / |D.gt1| = 0 := by
    rw [sub_self, zero_div]
  have htop : ((get_envelope D).y_max - (get_envelope D).y_max) / |D.gt5| = 0 := by
    rw [sub_self, zero_div]
  have hright : ((get_envelope D).x_max - (get_envelope D).x_min) / |D.gt1| = (D.RasterXSize : ℚ) := by
    rw [envelope_width D hb, mul_comm]
    exact mul_div_cancel_right₀ _ (ne_of_gt hax)
  have hbottom : ((get_envelope D).y_max - (get_envelope D).y_min) / |D.gt5| = (D.RasterYSize : ℚ) := by
    rw [envelope_height D hd, mul_comm]
    exact mul_div_cancel_right₀ _ (ne_of_gt hay)
  rw [hleft, htop, hright, hbottom]
  simp [pyRound_zero, pyRound_natCast]

/-- Witness for C8 at a concrete north-up dataset (2×2 pixels of size 10,
origin (100, 200), negative vertical pitch). -/
theorem C8_reading_window_roundtrip_witness :
    get_reading_window ⟨2, 2, 100, 10, 0, 200, 0, -10⟩
        (get_envelope ⟨2, 2, 100, 10, 0, 200, 0, -10⟩) = (0, 0, 2, 2) ∧
    (get_envelope ⟨2, 2, 100, 10, 0, 200, 0, -10⟩).x_min ≤
      (get_envelope ⟨2, 2, 100, 10, 0, 200, 0, -10⟩).x_max ∧
    (get_envelope ⟨2, 2, 100, 10, 0, 200, 0, -10⟩).y_min ≤
      (get_envelope ⟨2, 2, 100, 10, 0, 200, 0, -10⟩).y_max := by
  simpa using C8_reading_window_roundtrip ⟨2, 2, 100, 10, 0, 200, 0, -10⟩
    rfl rfl (by norm_num) (by norm_num) (by norm_num) (by norm_num)

/-! ### Tile Reconciliation, point-set model (lambda_function.py lines 147-163)

OGR geometries are modelled by their point sets in the grid CRS plane.
`Intersection` is `∩`, `Difference` is `\`, `Intersects` is nonemptiness of
the intersection. -/

/-- A point of the projected grid plane. -/
abbrev GeoPoint := ℚ × ℚ

/-- `OgrCommonUtils.create_geometry_from_bbox` (osgeo_utils.py lines 41-53):
the closed region enclosed by the 5-point ring
`(x_min,y_min) (x_max,y_min) (x_max,y_max) (x_min,y_max) (x_min,y_min)`. -/
def create_geometry_from_bbox (x_min y_min x_max y_max : ℚ) : Set GeoPoint :=
  {p | x_min ≤ p.1 ∧ p.1 ≤ x_max ∧ y_min ≤ p.2 ∧ p.2 ≤ y_max}

/-- The body of line 163:
`if aoi_geometry.Intersects(geom_obj): aoi_geometry = aoi_geometry.Difference(geom_obj)`.
A point stays in the running AOI iff it was there and, in case the guard
fires (the two geometries do intersect), it is not in the subtracted
geometry; when the guard does not fire the membership is unchanged, which
is exactly the branch semantics of the source line. -/
def guarded_difference (aoi_geometry geom_obj : Set GeoPoint) : Set GeoPoint :=
  {p | p ∈ aoi_geometry ∧ ((aoi_geometry ∩ geom_obj).Nonempty → p ∉ geom_obj)}

/-- `item_name = item_id[0:4] + grid_name + item_id[9:]`
(lambda_function.py line 151). -/
def derived_item_name (item_id grid_name : String) : String :=
  item_id.take 4 ++ grid_name ++ item_id.drop 9

/-- One iteration of the reconciliation loop (lambda_function.py lines
150-163). `store` models the persisted neighbor documents: `store n` is the
geometry built from the `land_use.aoi_extent` of the record stored under
item name `n`, or `none` when `FileUtils.exist_s3_path` is false for it. -/
def reconcile_step (item_id : String) (store : String → Option (Set GeoPoint))
    (aoi_geometry : Set GeoPoint) (grid_name : String) : Set GeoPoint :=
  let item_name := derived_item_name item_id grid_name
  if item_name = item_id then aoi_geometry
  else
    match store item_name with
    | none => aoi_geometry
    | some geom_obj => guarded_difference aoi_geometry geom_obj

/-- The whole reconciliation loop over the configured grid names
(lambda_function.py lines 150-163). -/
def reconcile (item_id : String) (store : String → Option (Set GeoPoint))
    (aoi_geometry : Set GeoPoint) (grid_names : List String) : Set GeoPoint :=
  grid_names.foldl (reconcile_step item_id store) aoi_geometry

/-- One iteration of line 155's fetch condition:
`item_name != item_id and FileUtils.exist_s3_path(s3, item_path)` — the
item name is recorded when the loop fetches its document. -/
def fetched_items_step (item_id : String) (exist_s3 : String → Bool)
    (acc : List String) (grid_name : String) : List String :=
  let item_name := derived_item_name item_id grid_name
  if item_name != item_id && exist_s3 item_name then acc ++ [item_name] else acc

/-- The item names the loop fetches from the object store over the whole
grid-name list (lambda_function.py lines 150-159). -/
def fetched_items (item_id : String) (exist_s3 : String → Bool)
    (grid_names : List String) : List String :=
  grid_names.foldl (fetched_items_step item_id exist_s3) []

/-- The guarded difference of line 163 is plain set difference: when the
geometries do not intersect, subtracting changes nothing anyway. -/
theorem guarded_difference_eq_diff (a g : Set GeoPoint) :
    guarded_difference a g = a \ g := by
  by_cases h : (a ∩ g).Nonempty
  · ext p
    simp [guarded_difference, h, Set.mem_diff]
  · ext p
    constructor
    · intro hp
      refine ⟨hp.1, fun hpg => h ⟨p, hp.1, hpg⟩⟩
    · intro hp
      exact ⟨hp.1, fun _ => hp.2⟩

/-- Each loop iteration subtracts a fixed set (possibly empty) from the
running AOI. -/
theorem reconcile_step_eq_diff (item_id : String) (store : String → Option (Set GeoPoint))
    (aoi_geometry : Set GeoPoint) (grid_name : String) :
    reconcile_step item_id store aoi_geometry grid_name =
      aoi_geometry \
        (if derived_item_name item_id grid_name = item_id then ∅
         else (store (derived_item_name item_id grid_name)).getD ∅) := by
  simp only [reconcile_step]
  by_cases h : derived_item_name item_id grid_name = item_id
  · simp [h]
  · simp only [if_neg h]
    cases hs : store (derived_item_name item_id grid_name) with
    | none => simp
    | some g => simp [guarded_difference_eq_diff]

/-- Every iteration shrinks the running AOI. -/
theorem reconcile_step_subset (item_id : String) (store : String → Option (Set GeoPoint))
    (aoi_geometry : Set GeoPoint) (grid_name : String) :
    reconcile_step item_id store aoi_geometry grid_name ⊆ aoi_geometry := by
  rw [reconcile_step_eq_diff]
  exact Set.diff_subset

/-- Unfolding one iteration of the loop. -/
theorem reconcile_cons (item_id : String) (store : String → Option (Set GeoPoint))
    (aoi_geometry : Set GeoPoint) (grid_name : String) (rest : List String) :
    reconcile item_id store aoi_geometry (grid_name :: rest) =
      reconcile item_id store (reconcile_step item_id store aoi_geometry grid_name) rest := by
  simp only [reconcile, List.foldl_cons]

/-- The reconciliation loop only shrinks its starting AOI. -/
theorem reconcile_subset (item_id : String) (store : String → Option (Set GeoPoint))
    (grid_names : List String) :
    ∀ aoi_geometry : Set GeoPoint,
      reconcile item_id store aoi_geometry grid_names ⊆ aoi_geometry := by
  induction grid_names with
  | nil => intro aoi; exact fun p hp => hp
  | cons g rest ih =>
    intro aoi
    rw [reconcile_cons]
    exact Set.Subset.trans (ih (reconcile_step item_id store aoi g))
      (reconcile_step_subset item_id store aoi g)

/-- C6: throughout Tile Reconciliation the running AOI stays inside the
original candidate AOI `cm_geometry ∩ lu_geometry` (line 148) — after every
iteration (every prefix of the grid-name list, hence also at the loop's
end) the residual is a subset of that initial intersection. -/
theorem C6_residual_subset_candidate (item_id : String)
    (store : String → Option (Set GeoPoint)) (cm_geometry lu_geometry : Set GeoPoint)
    (grid_names : List String) (k : ℕ) :
    reconcile item_id store (cm_geometry ∩ lu_geometry) (grid_names.take k) ⊆
      cm_geometry ∩ lu_geometry :=
  reconcile_subset item_id store (grid_names.take k) (cm_geometry ∩ lu_geometry)

/-- The loop body is right-commutative, because each iteration is the
subtraction of a set depending only on the grid name. -/
theorem reconcile_step_right_comm (item_id : String)
    (store : String → Option (Set GeoPoint)) (aoi : Set GeoPoint) (g₁ g₂ : String) :
    reconcile_step item_id store (reconcile_step item_id store aoi g₁) g₂ =
      reconcile_step item_id store (reconcile_step item_id store aoi g₂) g₁ := by
  simp only [reconcile_step_eq_diff]
  exact sdiff_right_comm aoi _ _

/-- Fold over a permuted list with a right-commutative body. -/
theorem foldl_perm_of_right_comm {α β : Type} {f : α → β → α}
    (H : ∀ a x y, f (f a x) y = f (f a y) x) {l₁ l₂ : List β}
    (p : List.Perm l₁ l₂) : ∀ a : α, l₁.foldl f a = l₂.foldl f a := by
  induction p with
  | nil => intro a; rfl
  | cons x _ ih => intro a; simpa using ih (f a x)
  | swap x y l => intro a; simp only [List.foldl_cons]; rw [H a y x]
  | trans _ _ ih₁ ih₂ => intro a; rw [ih₁ a, ih₂ a]

/-- C7: the reconciliation loop is order-independent — for a fixed store of
neighbor extents, any permutation of the iteration order yields the *same*
residual AOI point set (hence in particular the same total area). -/
theorem C7_reconcile_order_independent (item_id : String)
    (store : String → Option (Set GeoPoint)) (aoi_geometry : Set GeoPoint)
    (grid_names₁ grid_names₂ : List String)
    (hperm : List.Perm grid_names₁ grid_names₂) :
    reconcile item_id store aoi_geometry grid_names₁ =
      reconcile item_id store aoi_geometry grid_names₂ :=
  foldl_perm_of_right_comm (reconcile_step_right_comm item_id store) hperm aoi_geometry

/-- Witness for C7: two axis-aligned neighbor rectangles subtracted from a
bbox candidate AOI, in the two possible orders. -/
theorem C7_reconcile_order_independent_witness :
    reconcile "0123ABCDE9"
        (fun n =>
          if n = "0123FGHIJ9" then some (create_geometry_from_bbox 0 0 5 10)
          else if n = "0123KLMNO9" then some (create_geometry_from_bbox 5 0 10 10)
          else none)
        (create_geometry_from_bbox 0 0 10 10) ["FGHIJ", "KLMNO"] =
      reconcile "0123ABCDE9"
        (fun n =>
          if n = "0123FGHIJ9" then some (create_geometry_from_bbox 0 0 5 10)
          else if n = "0123KLMNO9" then some (create_geometry_from_bbox 5 0 10 10)
          else none)
        (create_geometry_from_bbox 0 0 10 10) ["KLMNO", "FGHIJ"] :=
  C7_reconcile_order_independent "0123ABCDE9" _ _ _ _ (List.Perm.swap "KLMNO" "FGHIJ" [])

/-- C5: the current tile is never its own neighbor. First, the item name
equal to `item_id` is never among the fetched records (the guard at line
155); second, the residual AOI does not depend on what the store holds
under the current item's own identifier — overwriting that entry (even
with an arbitrary geometry) leaves the reconciliation result unchanged. -/
theorem C5_self_tile_never_neighbor (item_id : String) (exist_s3 : String → Bool)
    (store : String → Option (Set GeoPoint)) (v : Option (Set GeoPoint))
    (aoi_geometry : Set GeoPoint) (grid_names : List String) :
    item_id ∉ fetched_items item_id exist_s3 grid_names ∧
    reconcile item_id (Function.update store item_id v) aoi_geometry grid_names =
      reconcile item_id store aoi_geometry grid_names := by
  constructor
  · have hstep_not : ∀ (acc : List String) (g : String), item_id ∉ acc →
        item_id ∉ fetched_items_step item_id exist_s3 acc g := by
      intro acc g hacc
      simp only [fetched_items_step]
      split_ifs with hc
      · intro hmem
        rcases List.mem_append.mp hmem with hmem | hmem
        · exact hacc hmem
        · have hne : derived_item_name item_id g ≠ item_id :=
            bne_iff_ne.mp ((Bool.and_eq_true _ _).mp hc).1
          exact hne (List.mem_singleton.mp hmem).symm
      · exact hacc
    have haux : ∀ (l : List String) (acc : List String), item_id ∉ acc →
        item_id ∉ l.foldl (fetched_items_step item_id exist_s3) acc := by
      intro l
      induction l with
      | nil => intro acc hacc; exact hacc
      | cons g rest ih =>
        intro acc hacc
        rw [List.foldl_cons]
        exact ih _ (hstep_not acc g hacc)
    exact haux grid_names [] (by simp)
  · have hstep : reconcile_step item_id (Function.update store item_id v) =
        reconcile_step item_id store := by
      funext aoi g
      simp only [reconcile_step]
      split_ifs with h
      · rfl
      · rw [Function.update_noteq h]
    unfold reconcile
    rw [hstep]

/-! ### Executable rectangle model of the handler (lambda_function.py lines 118-261)

Every geometry on the reconciliation path is an axis-aligned bbox polygon
(`create_geometry_from_bbox` of a dataset envelope or of a persisted
`aoi_extent`), the intersection of two such, or a difference of such, so
the reachable geometries are finite unions of axis-aligned rectangles and
are represented exactly by a `List Extent` (each member a nondegenerate
closed rectangle, the geometry their union). This model is executable, so
the handler can be run on concrete invocations. -/

/-- `Intersects` of two nonempty closed bbox polygons: the closed rectangles
overlap (touching boundaries count, as in OGR). -/
def rect_intersects (a b : Extent) : Bool :=
  a.x_min ≤ b.x_max && b.x_min ≤ a.x_max && a.y_min ≤ b.y_max && b.y_min ≤ a.y_max

/-- `Intersection` of two overlapping closed rectangles
(lambda_function.py line 148). -/
def rect_intersection (a b : Extent) : Extent :=
  { x_min := max a.x_min b.x_min
    y_min := max a.y_min b.y_min
    x_max := min a.x_max b.x_max
    y_max := min a.y_max b.y_max }

/-- Whether two closed rectangles overlap with positive area (their
interiors meet); a `Difference` changes a rectangle only in this case. -/
def rect_overlaps_interior (r s : Extent) : Bool :=
  s.x_min < r.x_max && r.x_min < s.x_max && s.y_min < r.y_max && r.y_min < s.y_max

/-- GEOS `Difference` of closed rectangle `r` minus closed rectangle `s`:
the closure of `r \ s`, decomposed into at most four positive-area
rectangles (left and right slabs at full height, then the remaining bottom
and top slabs); when the interiors do not meet the result is `r` itself
(only a measure-zero sliver could be removed). -/
def rect_difference_pieces (r s : Extent) : List Extent :=
  if rect_overlaps_interior r s then
    (if r.x_min < s.x_min then [{ x_min := r.x_min, y_min := r.y_min, x_max := s.x_min, y_max := r.y_max }] else []) ++
    (if s.x_max < r.x_max then [{ x_min := s.x_max, y_min := r.y_min, x_max := r.x_max, y_max := r.y_max }] else []) ++
    (if r.y_min < s.y_min then [{ x_min := max r.x_min s.x_min, y_min := r.y_min, x_max := min r.x_max s.x_max, y_max := s.y_min }] else []) ++
    (if s.y_max < r.y_max then [{ x_min := max r.x_min s.x_min, y_min := s.y_max, x_max := min r.x_max s.x_max, y_max := r.y_max }] else [])
  else [r]

/-- `Intersects` of a rectangle-union geometry with a bbox polygon. -/
def geom_intersects (geom : List Extent) (other : Extent) : Bool :=
  geom.any (fun r => rect_intersects r other)

/-- `Difference` of a rectangle-union geometry with a bbox polygon. -/
def geom_difference (geom : List Extent) (other : Extent) : List Extent :=
  geom.flatMap (fun r => rect_difference_pieces r other)

/-- `Geometry.GetEnvelope()` of a rectangle-union geometry, as the Extent
`(min_x, min_y, max_x, max_y)`; OGR returns the zero envelope
`(0, 0, 0, 0)` for an empty geometry. -/
def geom_envelope : List Extent → Extent
  | [] => { x_min := 0, y_min := 0, x_max := 0, y_max := 0 }
  | r :: rs =>
    rs.foldl
      (fun acc t =>
        { x_min := min acc.x_min t.x_min
          y_min := min acc.y_min t.y_min
          x_max := max acc.x_max t.x_max
          y_max := max acc.y_max t.y_max })
      r

/-- The reconciliation loop (lambda_function.py lines 150-163) in the
rectangle model. `store n` is the `land_use.aoi_extent` of the persisted
record under item name `n` (from which line 161 builds a bbox polygon), or
`none` when no record exists. -/
def reconcile_rect (item_id : String) (store : String → Option Extent)
    (aoi_geometry : List Extent) (grid_names : List String) : List Extent :=
  grid_names.foldl
    (fun aoi grid_name =>
      let item_name := derived_item_name item_id grid_name
      if item_name = item_id then aoi
      else
        match store item_name with
        | none => aoi
        | some temp_env => if geom_intersects aoi temp_env then geom_difference aoi temp_env else aoi)
    aoi_geometry

/-- The clamped `aoi_extent` the handler computes after reconciliation
(lambda_function.py lines 147-170): envelope of the residual AOI, clamped
per axis to the land-use dataset envelope. -/
def residual_aoi_extent (cm_dataset lu_dataset : Dataset) (item_id : String)
    (grid_names : List String) (store : String → Option Extent) : Extent :=
  clamp_aoi_extent
    (geom_envelope
      (reconcile_rect item_id store
        [rect_intersection (get_envelope cm_dataset) (get_envelope lu_dataset)] grid_names))
    (get_envelope lu_dataset)

/-- The observable outcome of one handler invocation:
`no_intersection` is the early return of lines 140-143 (nothing computed,
nothing written); `ok` is the normal return of lines 258-261, carrying the
two reading windows passed to `ReadAsArray`, the statistics and the
`aoi_extent` field stored in the written `land_use` object. -/
inductive HandlerResult where
  | no_intersection : HandlerResult
  | ok : (ℤ × ℤ × ℤ × ℤ) → (ℤ × ℤ × ℤ × ℤ) → ℕ → ℕ → Option ℚ → Extent → HandlerResult
deriving DecidableEq

/-- The HTTP-ish status code of the structured return value: both exits
return `'statusCode': 200` (lines 141 and 259). -/
def handler_status_code : HandlerResult → ℕ
  | HandlerResult.no_intersection => 200
  | HandlerResult.ok _ _ _ _ _ _ => 200

/-- The `land_use` object of the result document the invocation uploads
(lines 243-256): `none` when no document is written. -/
def written_land_use : HandlerResult → Option (ℕ × ℕ × Option ℚ × Extent)
  | HandlerResult.no_intersection => none
  | HandlerResult.ok _ _ u v c e => some (u, v, c, e)

/-- `lambda_handler` (lambda_function.py lines 77-261) over the rectangle
model. The externally read raster windows (`ReadAsArray`) and the
rasterized footprint mask are supplied as the grids `cm_raster_win`,
`lu_raster_win`, `gm_raster` since they come from remote IO and the
scan-conversion rasterizer; everything the claims speak about — the
envelope computation, the intersection test and early return, the
reconciliation loop, the extent clamping, the reading windows, the
statistics step and the stored `aoi_extent` (line 247: `cm_extent`) — is
computed by the model itself. -/
def lambda_handler_model (cm_dataset lu_dataset : Dataset) (item_id : String)
    (grid_names : List String) (store : String → Option Extent)
    (cm_raster_win lu_raster_win gm_raster : List (List ℤ)) : HandlerResult :=
  let cm_extent := get_envelope cm_dataset
  let lu_extent := get_envelope lu_dataset
  if !(rect_intersects lu_extent cm_extent) then HandlerResult.no_intersection
  else
    let aoi_geometry := [rect_intersection cm_extent lu_extent]
    let aoi_geometry := reconcile_rect item_id store aoi_geometry grid_names
    let temp := geom_envelope aoi_geometry
    let aoi_extent := clamp_aoi_extent temp lu_extent
    let cm_window := get_reading_window cm_dataset aoi_extent
    let lu_window := get_reading_window lu_dataset aoi_extent
    let stats := lambda_statistics cm_raster_win lu_raster_win gm_raster none none
    HandlerResult.ok cm_window lu_window stats.1 stats.2.1 stats.2.2 cm_extent

/-! ### Claims C3, C4, C9 — the handler -/

/-- C4: when the land-classification envelope polygon and the cloud-mask
envelope polygon do not intersect, the handler short-circuits at lines
139-143 with the distinguished success outcome (`statusCode` 200, body
`'Input data do not intersect'`): no statistics are computed and no result
document is written. -/
theorem C4_no_intersection_short_circuit (cm_dataset lu_dataset : Dataset)
    (item_id : String) (grid_names : List String) (store : String → Option Extent)
    (cm_raster_win lu_raster_win gm_raster : List (List ℤ))
    (h : rect_intersects (get_envelope lu_dataset) (get_envelope cm_dataset) = false) :
    lambda_handler_model cm_dataset lu_dataset item_id grid_names store
        cm_raster_win lu_raster_win gm_raster = HandlerResult.no_intersection ∧
    written_land_use (lambda_handler_model cm_dataset lu_dataset item_id grid_names store
        cm_raster_win lu_raster_win gm_raster) = none ∧
    handler_status_code (lambda_handler_model cm_dataset lu_dataset item_id grid_names store
        cm_raster_win lu_raster_win gm_raster) = 200 := by
  have hmodel : lambda_handler_model cm_dataset lu_dataset item_id grid_names store
      cm_raster_win lu_raster_win gm_raster = HandlerResult.no_intersection := by
    simp [lambda_handler_model, h]
  refine ⟨hmodel, ?_, ?_⟩
  · rw [hmodel]; rfl
  · rw [hmodel]; rfl

/-- Witness for C4: a cloud-mask envelope `(0,0,1,1)` and a land-use
envelope `(10,10,11,11)` that do not overlap. -/
theorem C4_no_intersection_short_circuit_witness :
    lambda_handler_model ⟨1, 1, 0, 1, 0, 1, 0, -1⟩ ⟨1, 1, 10, 1, 0, 11, 0, -1⟩
        "0123ABCDE9" [] (fun _ => none) [[2]] [[0]] [[1]] = HandlerResult.no_intersection ∧
    written_land_use (lambda_handler_model ⟨1, 1, 0, 1, 0, 1, 0, -1⟩ ⟨1, 1, 10, 1, 0, 11, 0, -1⟩
        "0123ABCDE9" [] (fun _ => none) [[2]] [[0]] [[1]]) = none ∧
    handler_status_code (lambda_handler_model ⟨1, 1, 0, 1, 0, 1, 0, -1⟩ ⟨1, 1, 10, 1, 0, 11, 0, -1⟩
        "0123ABCDE9" [] (fun _ => none) [[2]] [[0]] [[1]]) = 200 :=
  C4_no_intersection_short_circuit ⟨1, 1, 0, 1, 0, 1, 0, -1⟩ ⟨1, 1, 10, 1, 0, 11, 0, -1⟩
    "0123ABCDE9" [] (fun _ => none) [[2]] [[0]] [[1]]
    (of_decide_eq_true (by with_unfolding_all rfl))

/-- C3 (counterexample): an invocation with cloud-mask envelope
`(0,0,10,10)`, land-use envelope `(5,5,20,20)` and no neighbor records.
The clamped residual-AOI extent is `(5,5,10,10)`, but the written
`land_use.aoi_extent` (line 247) is the cloud-mask envelope `(0,0,10,10)`
— not the clamped residual extent the claim asserts. -/
theorem C3_counterexample_stored_extent :
    lambda_handler_model ⟨10, 10, 0, 1, 0, 10, 0, -1⟩ ⟨15, 15, 5, 1, 0, 20, 0, -1⟩
        "0123ABCDE9" [] (fun _ => none) [[2]] [[0]] [[1]] =
      HandlerResult.ok (5, 0, 10, 5) (0, 10, 5, 15) 1 1 (some 100) ⟨0, 0, 10, 10⟩ ∧
    residual_aoi_extent ⟨10, 10, 0, 1, 0, 10, 0, -1⟩ ⟨15, 15, 5, 1, 0, 20, 0, -1⟩
        "0123ABCDE9" [] (fun _ => none) = ⟨5, 5, 10, 10⟩ ∧
    (⟨0, 0, 10, 10⟩ : Extent) ≠ ⟨5, 5, 10, 10⟩ :=
  of_decide_eq_true (by with_unfolding_all rfl)

/-- C3 (amended): every successful invocation stores, as
`land_use.aoi_extent` of the written result document, the cloud-mask
dataset's own envelope (`cm_extent`, line 247) — not the clamped
residual-AOI extent; the envelope neighbors later subtract is therefore the
full cloud-mask envelope. -/
theorem C3_stored_aoi_extent_is_cm_envelope (cm_dataset lu_dataset : Dataset)
    (item_id : String) (grid_names : List String) (store : String → Option Extent)
    (cm_raster_win lu_raster_win gm_raster : List (List ℤ))
    (cm_window lu_window : ℤ × ℤ × ℤ × ℤ) (urban_pixels valid_urban_pixels : ℕ)
    (urban_cover : Option ℚ) (stored_extent : Extent)
    (h : lambda_handler_model cm_dataset lu_dataset item_id grid_names store
        cm_raster_win lu_raster_win gm_raster =
      HandlerResult.ok cm_window lu_window urban_pixels valid_urban_pixels
        urban_cover stored_extent) :
    stored_extent = get_envelope cm_dataset := by
  simp only [lambda_handler_model] at h
  split at h
  · exact HandlerResult.noConfusion h
  · injection h with h1 h2 h3 h4 h5 h6
    exact h6.symm

/-- Witness for C3's amended theorem at the counterexample invocation. -/
theorem C3_stored_aoi_extent_is_cm_envelope_witness :
    (⟨0, 0, 10, 10⟩ : Extent) = get_envelope ⟨10, 10, 0, 1, 0, 10, 0, -1⟩ :=
  C3_stored_aoi_extent_is_cm_envelope ⟨10, 10, 0, 1, 0, 10, 0, -1⟩
    ⟨15, 15, 5, 1, 0, 20, 0, -1⟩ "0123ABCDE9" [] (fun _ => none) [[2]] [[0]] [[1]]
    (5, 0, 10, 5) (0, 10, 5, 15) 1 1 (some 100) ⟨0, 0, 10, 10⟩
    (of_decide_eq_true (by with_unfolding_all rfl))

/-- C9 (counterexample): an invocation whose residual AOI is emptied by a
neighbor record. Cloud-mask envelope `(100,100,200,200)`, land-use envelope
`(150,150,250,250)`, neighbor `aoi_extent` `(140,140,210,210)` covering the
whole candidate AOI. The empty residual's OGR envelope is `(0,0,0,0)`, the
clamp (lines 166-169) produces the inverted extent `(150,150,0,0)`, and
both reading windows fall outside their rasters (negative `right`,
`top > bottom`), refuting the claimed in-bounds guarantee. -/
theorem C9_counterexample_empty_residual :
    lambda_handler_model ⟨100, 100, 100, 1, 0, 200, 0, -1⟩ ⟨100, 100, 150, 1, 0, 250, 0, -1⟩
        "0123ABCDE9" ["ABCDE", "FGHIJ"]
        (fun n => if n = "0123FGHIJ9" then some ⟨140, 140, 210, 210⟩ else none)
        [[2]] [[0]] [[1]] =
      HandlerResult.ok (50, 200, -100, 50) (0, 250, -150, 100) 1 1 (some 100)
        ⟨100, 100, 200, 200⟩ ∧
    ¬ window_within_grid ⟨100, 100, 100, 1, 0, 200, 0, -1⟩ (50, 200, -100, 50) ∧
    ¬ window_within_grid ⟨100, 100, 150, 1, 0, 250, 0, -1⟩ (0, 250, -150, 100) :=
  of_decide_eq_true (by with_unfolding_all rfl)

/-- In-bounds windows: a bbox inside the dataset's own envelope yields a
reading window inside the raster grid. -/
theorem get_reading_window_within_grid (D : Dataset) (bbox : Extent)
    (hb : D.gt2 = 0) (hd : D.gt4 = 0) (ha : D.gt1 ≠ 0) (he : D.gt5 ≠ 0)
    (hw : 0 < D.RasterXSize) (hh : 0 < D.RasterYSize)
    (hx1 : (get_envelope D).x_min ≤ bbox.x_min) (hx2 : bbox.x_min ≤ bbox.x_max)
    (hx3 : bbox.x_max ≤ (get_envelope D).x_max)
    (hy1 : (get_envelope D).y_min ≤ bbox.y_min) (hy2 : bbox.y_min ≤ bbox.y_max)
    (hy3 : bbox.y_max ≤ (get_envelope D).y_max) :
    window_within_grid D (get_reading_window D bbox) := by
  rw [get_reading_window_no_rotation D bbox hb hd hw hh]
  unfold window_within_grid
  have hax : (0:ℚ) < |D.gt1| := abs_pos.mpr ha
  have hay : (0:ℚ) < |D.gt5| := abs_pos.mpr he
  have hwq : (get_envelope D).x_max - (get_envelope D).x_min = |D.gt1| * (D.RasterXSize : ℚ) :=
    envelope_width D hb
  have hhq : (get_envelope D).y_max - (get_envelope D).y_min = |D.gt5| * (D.RasterYSize : ℚ) :=
    envelope_height D hd
  refine ⟨?_, ?_, ?_, ?_, ?_, ?_⟩
  · calc (0:ℤ) = pyRound 0 := pyRound_zero.symm
    _ ≤ _ := pyRound_mono (div_nonneg (sub_nonneg.mpr hx1) hax.le)
  · exact pyRound_mono ((div_le_div_iff_of_pos_right hax).mpr (by linarith))
  · have harg : (bbox.x_max - (get_envelope D).x_min) / |D.gt1| ≤ (D.RasterXSize : ℚ) := by
      rw [div_le_iff₀ hax]
      have hcomm : (D.RasterXSize : ℚ) * |D.gt1| = |D.gt1| * (D.RasterXSize : ℚ) := mul_comm _ _
      linarith
    calc pyRound _ ≤ pyRound (D.RasterXSize : ℚ) := pyRound_mono harg
    _ = (D.RasterXSize : ℤ) := pyRound_natCast _
  · calc (0:ℤ) = pyRound 0 := pyRound_zero.symm
    _ ≤ _ := pyRound_mono (div_nonneg (sub_nonneg.mpr hy3) hay.le)
  · exact pyRound_mono ((div_le_div_iff_of_pos_right hay).mpr (by linarith))
  · have harg : ((get_envelope D).y_max - bbox.y_min) / |D.gt5| ≤ (D.RasterYSize : ℚ) := by
      rw [div_le_iff₀ hay]
      have hcomm : (D.RasterYSize : ℚ) * |D.gt5| = |D.gt5| * (D.RasterYSize : ℚ) := mul_comm _ _
      linarith
    calc pyRound _ ≤ pyRound (D.RasterYSize : ℚ) := pyRound_mono harg
    _ = (D.RasterYSize : ℤ) := pyRound_natCast _

/-- C9 (amended): provided the residual AOI is nonempty — its OGR envelope
`temp` is a proper rectangle contained in both the cloud-mask and the
land-use dataset envelopes, which holds for every nonempty residual since
the residual is a subset of the candidate AOI `cm ∩ lu` — the extent
clamped to the land-use envelope (lines 165-170) gives reading windows
satisfying `0 ≤ left ≤ right ≤ width` and `0 ≤ top ≤ bottom ≤ height` on
both datasets' grids. (For an empty residual the guarantee fails, see the
counterexample.) -/
theorem C9_windows_within_grid_of_nonempty_residual
    (cm_dataset lu_dataset : Dataset) (temp : Extent)
    (hcb : cm_dataset.gt2 = 0) (hcd : cm_dataset.gt4 = 0)
    (hca : cm_dataset.gt1 ≠ 0) (hce : cm_dataset.gt5 ≠ 0)
    (hcw : 0 < cm_dataset.RasterXSize) (hch : 0 < cm_dataset.RasterYSize)
    (hlb : lu_dataset.gt2 = 0) (hld : lu_dataset.gt4 = 0)
    (hla : lu_dataset.gt1 ≠ 0) (hle : lu_dataset.gt5 ≠ 0)
    (hlw : 0 < lu_dataset.RasterXSize) (hlh : 0 < lu_dataset.RasterYSize)
    (hx2 : temp.x_min ≤ temp.x_max) (hy2 : temp.y_min ≤ temp.y_max)
    (hc1 : (get_envelope cm_dataset).x_min ≤ temp.x_min)
    (hc3 : temp.x_max ≤ (get_envelope cm_dataset).x_max)
    (hc4 : (get_envelope cm_dataset).y_min ≤ temp.y_min)
    (hc6 : temp.y_max ≤ (get_envelope cm_dataset).y_max)
    (hl1 : (get_envelope lu_dataset).x_min ≤ temp.x_min)
    (hl3 : temp.x_max ≤ (get_envelope lu_dataset).x_max)
    (hl4 : (get_envelope lu_dataset).y_min ≤ temp.y_min)
    (hl6 : temp.y_max ≤ (get_envelope lu_dataset).y_max) :
    window_within_grid cm_dataset
      (get_reading_window cm_dataset (clamp_aoi_extent temp (get_envelope lu_dataset))) ∧
    window_within_grid lu_dataset
      (get_reading_window lu_dataset (clamp_aoi_extent temp (get_envelope lu_dataset))) := by
  have hxmin : (clamp_aoi_extent temp (get_envelope lu_dataset)).x_min =
      max temp.x_min (get_envelope lu_dataset).x_min := rfl
  have hymin : (clamp_aoi_extent temp (get_envelope lu_dataset)).y_min =
      max temp.y_min (get_envelope lu_dataset).y_min := rfl
  have hxmax : (clamp_aoi_extent temp (get_envelope lu_dataset)).x_max =
      min temp.x_max (get_envelope lu_dataset).x_max := rfl
  have hymax : (clamp_aoi_extent temp (get_envelope lu_dataset)).y_max =
      min temp.y_max (get_envelope lu_dataset).y_max := rfl
  have hxc : (clamp_aoi_extent temp (get_envelope lu_dataset)).x_min ≤
      (clamp_aoi_extent temp (get_envelope lu_dataset)).x_max := by
    rw [hxmin, hxmax]
    exact max_le (le_min hx2 (hx2.trans hl3))
      (le_min (hl1.trans hx2) ((hl1.trans hx2).trans hl3))
  have hyc : (clamp_aoi_extent temp (get_envelope lu_dataset)).y_min ≤
      (clamp_aoi_extent temp (get_envelope lu_dataset)).y_max := by
    rw [hymin, hymax]
    exact max_le (le_min hy2 (hy2.trans hl6))
      (le_min (hl4.trans hy2) ((hl4.trans hy2).trans hl6))
  constructor
  · refine get_reading_window_within_grid cm_dataset _ hcb hcd hca hce hcw hch ?_ hxc ?_ ?_ hyc ?_
    · rw [hxmin]; exact le_max_of_le_left hc1
    · rw [hxmax]; exact (min_le_left _ _).trans hc3
    · rw [hymin]; exact le_max_of_le_left hc4
    · rw [hymax]; exact (min_le_left _ _).trans hc6
  · refine get_reading_window_within_grid lu_dataset _ hlb hld hla hle hlw hlh ?_ hxc ?_ ?_ hyc ?_
    · rw [hxmin]; exact le_max_right _ _
    · rw [hxmax]; exact min_le_right _ _
    · rw [hymin]; exact le_max_right _ _
    · rw [hymax]; exact min_le_right _ _

/-- Witness for C9's amended theorem: a nonempty residual envelope
`(160,160,190,190)` inside both example dataset envelopes. -/
theorem C9_windows_within_grid_witness :
    window_within_grid ⟨100, 100, 100, 1, 0, 200, 0, -1⟩
      (get_reading_window ⟨100, 100, 100, 1, 0, 200, 0, -1⟩
        (clamp_aoi_extent ⟨160, 160, 190, 190⟩
          (get_envelope ⟨100, 100, 150, 1, 0, 250, 0, -1⟩))) ∧
    window_within_grid ⟨100, 100, 150, 1, 0, 250, 0, -1⟩
      (get_reading_window ⟨100, 100, 150, 1, 0, 250, 0, -1⟩
        (clamp_aoi_extent ⟨160, 160, 190, 190⟩
          (get_envelope ⟨100, 100, 150, 1, 0, 250, 0, -1⟩))) :=
  C9_windows_within_grid_of_nonempty_residual
    ⟨100, 100, 100, 1, 0, 200, 0, -1⟩ ⟨100, 100, 150, 1, 0, 250, 0, -1⟩
    ⟨160, 160, 190, 190⟩
    rfl rfl (of_decide_eq_true (by with_unfolding_all rfl))
    (of_decide_eq_true (by with_unfolding_all rfl))
    (of_decide_eq_true (by with_unfolding_all rfl))
    (of_decide_eq_true (by with_unfolding_all rfl))
    rfl rfl (of_decide_eq_true (by with_unfolding_all rfl))
    (of_decide_eq_true (by with_unfolding_all rfl))
    (of_decide_eq_true (by with_unfolding_all rfl))
    (of_decide_eq_true (by with_unfolding_all rfl))
    (of_decide_eq_true (by with_unfolding_all rfl))
    (of_decide_eq_true (by with_unfolding_all rfl))
    (of_decide_eq_true (by with_unfolding_all rfl))
    (of_decide_eq_true (by with_unfolding_all rfl))
    (of_decide_eq_true (by with_unfolding_all rfl))
    (of_decide_eq_true (by with_unfolding_all rfl))
    (of_decide_eq_true (by with_unfolding_all rfl))
    (of_decide_eq_true (by with_unfolding_all rfl))
    (of_decide_eq_true (by with_unfolding_all rfl))
    (of_decide_eq_true (by with_unfolding_all rfl))

end SenCloud


